import Mathlib

/-!
Verification of the Zendesk ticket exporter (`src/main.py`).

The embedding models the pure control flow of the script.  Network I/O is
represented by explicit data: the ticket-listing endpoint is a list of
`Page` responses consumed in order (a page's `next` flag records whether
its `next_page` field is non-null), and the comment endpoint is a function
from ticket id to a `CommentResponse`.  A raised Python exception becomes
`Except.error`.  Integer-valued ticket fields that flow into strings are
represented by their decimal rendering.
-/

namespace ZendeskExporter

/-- A raw ticket as returned by the listing endpoint.  `id`, `created_at`
and `updated_at` are always present; the remaining fields are optional
(`ticket.get(key, default)` in the source).  Integer ids appearing in
optional scalar fields are modelled by their decimal string. -/
structure RawTicket where
  id : Nat
  created_at : String
  updated_at : String
  subject : Option String
  description : Option String
  status : Option String
  priority : Option String
  requester_id : Option String
  assignee_id : Option String
  tags : Option (List String)
  deriving Repr, DecidableEq

/-- One comment of a ticket's thread: `author_id`, `created_at`, `body`. -/
structure Comment where
  author_id : Nat
  created_at : String
  body : String
  deriving Repr, DecidableEq

/-- One response of the ticket-listing endpoint: the HTTP status code, the
`tickets` array of the JSON body, and whether the body's `next_page` field
is non-null. -/
structure Page where
  status : Nat
  tickets : List RawTicket
  next : Bool
  deriving Repr, DecidableEq

/-- One response of the per-ticket comments endpoint: the HTTP status code
and the `comments` array of the JSON body. -/
structure CommentResponse where
  status : Nat
  comments : List Comment
  deriving Repr, DecidableEq

/-- The truthiness test `if limit and len(all_tickets) >= limit:` of
`get_tickets`: false when `limit` is `None` and also when it is `0`
(Python treats `0` as falsy), otherwise the length comparison. -/
def limitReached (limit : Option Nat) (n : Nat) : Bool :=
  match limit with
  | none => false
  | some l => l != 0 && decide (l ≤ n)

/-- The `while next_page:` loop of `get_tickets`.  Arguments mirror the
loop state: the pages the server will serve in order, the accumulator
`all_tickets`, and the number of `requests.get` calls performed so far.
A non-200 status raises (`Except.error status`).  After extending the
accumulator with the fetched batch, the loop truncates and breaks once
`limit` is reached, otherwise it continues while `next_page` is non-null. -/
def getTicketsLoop (limit : Option Nat) :
    List Page → List RawTicket → Nat → Except Nat (List RawTicket × Nat)
  | [], all_tickets, fetches => .ok (all_tickets, fetches)
  | page :: rest, all_tickets, fetches =>
    if page.status ≠ 200 then
      .error page.status
    else
      let acc := all_tickets ++ page.tickets
      if limitReached limit acc.length then
        .ok (acc.take (limit.getD 0), fetches + 1)
      else if page.next then
        getTicketsLoop limit rest acc (fetches + 1)
      else
        .ok (acc, fetches + 1)

/-- `ZendeskExporter.get_tickets`: paginated retrieval.  Returns the
collected tickets together with the number of page fetches performed, or
the failing status code.  (`start_time` only alters the request URL and is
not modelled.) -/
def get_tickets (limit : Option Nat) (pages : List Page) :
    Except Nat (List RawTicket × Nat) :=
  getTicketsLoop limit pages [] 0

/-- Total number of tickets the server holds across all pages. -/
def totalTickets (pages : List Page) : Nat :=
  (pages.map (fun p => p.tickets.length)).sum

/-- A coherent server-side pagination corpus: every page answers status
200, every page but the last carries a non-null `next_page`, and the last
page's `next_page` is null. -/
def wellFormed : List Page → Bool
  | [] => true
  | [p] => p.status == 200 && p.next == false
  | p :: rest => p.status == 200 && p.next == true && wellFormed rest

/-- The warning printed by `get_ticket_comments` on a non-200 status. -/
def commentWarning (ticket_id : Nat) : String :=
  "Warning: Failed to get comments for ticket " ++ toString ticket_id

/-- `ZendeskExporter.get_ticket_comments`: on a non-200 status, print a
warning and return the empty list; otherwise return the body's `comments`.
The warning channel is made explicit as the second component. -/
def get_ticket_comments (ticket_id : Nat) (resp : CommentResponse) :
    List Comment × Option String :=
  if resp.status ≠ 200 then
    ([], some (commentWarning ticket_id))
  else
    (resp.comments, none)

/-- The exported record built for each ticket by
`get_tickets_with_comments`: all eleven keys always present. -/
structure NormalizedRecord where
  id : Nat
  created_at : String
  updated_at : String
  subject : String
  description : String
  status : String
  priority : String
  requester_id : String
  assignee_id : String
  tags : List String
  comments : String
  deriving Repr, DecidableEq

/-- The f-string `f"Comment by {comment['author_id']} at {comment['created_at']}:\n{comment['body']}"`. -/
def formatComment (c : Comment) : String :=
  "Comment by " ++ toString c.author_id ++ " at " ++ c.created_at ++ ":\n" ++ c.body

/-- The `comments` value synthesized in `get_tickets_with_comments`:
`additional_comments = comments[1:] if comments else []`, then
`'\n---\n'.join(...) if additional_comments else ''`. -/
def commentsField (comments : List Comment) : String :=
  let additional_comments := if comments.isEmpty then [] else comments.drop 1
  if additional_comments.isEmpty then ""
  else String.intercalate "\n---\n" (additional_comments.map formatComment)

/-- The `ticket_data` dictionary literal of `get_tickets_with_comments`:
required fields passed through, optional fields defaulted
(`ticket.get(key, '')`, `ticket.get('tags', [])`), plus the synthesized
`comments` field. -/
def normalizeTicket (ticket : RawTicket) (comments : List Comment) :
    NormalizedRecord where
  id := ticket.id
  created_at := ticket.created_at
  updated_at := ticket.updated_at
  subject := ticket.subject.getD ""
  description := ticket.description.getD ""
  status := ticket.status.getD ""
  priority := ticket.priority.getD ""
  requester_id := ticket.requester_id.getD ""
  assignee_id := ticket.assignee_id.getD ""
  tags := ticket.tags.getD []
  comments := commentsField comments

/-- `ZendeskExporter.get_tickets_with_comments`: for each ticket in input
order, fetch its comments (`fetch` models the comments endpoint) and
build the enriched record. -/
def get_tickets_with_comments (fetch : Nat → CommentResponse)
    (tickets : List RawTicket) : List NormalizedRecord :=
  tickets.map (fun t => normalizeTicket t (get_ticket_comments t.id (fetch t.id)).fst)

/-- The header row written by `export_to_csv`: the values of
`columns_to_export`, in its fixed insertion order. -/
def csvHeader : List String :=
  ["Ticket ID", "Created Date", "Last Updated", "Subject", "Description",
   "Status", "Priority", "Requester ID", "Assignee ID", "Tags",
   "Additional Comments"]

/-- Python `repr` of a list of strings, as `pandas.to_csv` renders the
`tags` cell (quoting simplified: bodies are wrapped in single quotes
without escaping). -/
def pyListRepr (l : List String) : String :=
  "[" ++ String.intercalate ", " (l.map (fun s => "\x27" ++ s ++ "\x27")) ++ "]"

/-- One data row of the CSV, cells in the fixed `columns_to_export`
order. -/
def toCSVRow (r : NormalizedRecord) : List String :=
  [toString r.id, r.created_at, r.updated_at, r.subject, r.description,
   r.status, r.priority, r.requester_id, r.assignee_id,
   pyListRepr r.tags, r.comments]

/-- `ZendeskExporter.export_to_csv`, modelled as the rows written.
`pd.DataFrame([])` has no columns at all, so the column selection
`df[columns_to_export.keys()]` raises `KeyError` when `tickets` is the
empty list; with at least one record every key is a column (the
`ticket_data` dict always carries all eleven keys) and the write
succeeds: one header row, then one row per record. -/
def export_to_csv (records : List NormalizedRecord) :
    Except String (List (List String)) :=
  if records.isEmpty then
    .error "KeyError"
  else
    .ok (csvHeader :: records.map toCSVRow)

/-- The exact message printed by `main` when a credential is missing. -/
def credErrorMessage : String :=
  "\nERROR: Missing Zendesk credentials. Please set these environment variables:\n" ++
  "  - ZENDESK_SUBDOMAIN\n" ++
  "  - ZENDESK_EMAIL\n" ++
  "  - ZENDESK_API_TOKEN\n"

/-- Python truthiness of an `os.getenv` result: `None` and the empty
string are falsy. -/
def isTruthy : Option String → Bool
  | none => false
  | some s => s != ""

/-- The credential pre-flight of `main`: read `ZENDESK_SUBDOMAIN`,
`ZENDESK_EMAIL`, `ZENDESK_API_TOKEN` from the environment; if
`not all([...])`, print the remediation message and `sys.exit(1)`
(modelled as the error message paired with the exit code). -/
def checkCredentials (env : String → Option String) :
    Except (String × Nat) (String × String × String) :=
  match env "ZENDESK_SUBDOMAIN", env "ZENDESK_EMAIL", env "ZENDESK_API_TOKEN" with
  | some s, some e, some t =>
    if s != "" && e != "" && t != "" then .ok (s, e, t)
    else .error (credErrorMessage, 1)
  | _, _, _ => .error (credErrorMessage, 1)

/-- Outcome of validating one line of the interactive limit prompt. -/
inductive LimitInput where
  | accept (limit : Option Nat)
  | retry (msg : String)
  deriving Repr, DecidableEq

/-- Python `str.strip()`: drop whitespace from both ends. -/
def pyStrip (s : String) : String :=
  ⟨((s.data.dropWhile Char.isWhitespace).reverse.dropWhile Char.isWhitespace).reverse⟩

/-- Value of a nonempty all-digit character sequence, else `none`. -/
def digitsVal (ds : List Char) : Option Nat :=
  if ds ≠ [] ∧ ds.all Char.isDigit then
    some (ds.foldl (fun a c => a * 10 + (c.toNat - 48)) 0)
  else none

/-- Python `int()` on an already-stripped string: an optional sign
followed by at least one digit, else a `ValueError` (`none`). -/
def pyInt (s : String) : Option Int :=
  match s.data with
  | '-' :: cs => (digitsVal cs).map (fun n => -(n : Int))
  | '+' :: cs => (digitsVal cs).map (fun n => (n : Int))
  | cs => (digitsVal cs).map (fun n => (n : Int))

/-- One iteration of `main`'s prompt loop: empty input means no limit;
a parsed integer `≤ 0` or unparsable input is rejected and re-prompted. -/
def parseLimitInput (s : String) : LimitInput :=
  let t := pyStrip s
  if t = "" then .accept none
  else
    match pyInt t with
    | some n => if n ≤ 0 then .retry "Please enter a positive number."
                else .accept (some n.toNat)
    | none => .retry "Please enter a valid number."

/-- The failure modes of one export run after the credential check. -/
inductive RunError where
  | config (msg : String) (code : Nat)
  | remote (status : Nat)
  | keyError
  deriving Repr, DecidableEq

/-- The fetch → enrich → write pipeline of `main` after credentials and
limit are settled: a listing failure aborts before enrichment and no CSV
rows are produced. -/
def runExport (limit : Option Nat) (pages : List Page)
    (fetch : Nat → CommentResponse) : Except RunError (List (List String)) :=
  match get_tickets limit pages with
  | .error s => .error (.remote s)
  | .ok (tickets, _) =>
    match export_to_csv (get_tickets_with_comments fetch tickets) with
    | .error _ => .error .keyError
    | .ok rows => .ok rows

/-- `main`: credential pre-flight first — on a missing credential the
process exits with the message and code 1 before any network activity —
then the export pipeline. -/
def mainRun (env : String → Option String) (limit : Option Nat)
    (pages : List Page) (fetch : Nat → CommentResponse) :
    Except RunError (List (List String)) :=
  match checkCredentials env with
  | .error (msg, code) => .error (.config msg code)
  | .ok _ => runExport limit pages fetch

end ZendeskExporter

namespace ZendeskExporter

/-- A concrete ticket with every optional field absent, used to
instantiate theorems with hypotheses. -/
def sampleTicket : RawTicket :=
  ⟨1, "2024-01-01T00:00:00Z", "2024-01-02T00:00:00Z",
   none, none, none, none, none, none, none⟩

lemma limitReached_none (n : Nat) : limitReached none n = false := rfl

lemma limitReached_zero (n : Nat) : limitReached (some 0) n = false := by
  simp [limitReached]

lemma getTicketsLoop_cons (limit : Option Nat) (p : Page) (rest : List Page)
    (acc : List RawTicket) (n : Nat) :
    getTicketsLoop limit (p :: rest) acc n =
      if p.status ≠ 200 then .error p.status
      else if limitReached limit (acc ++ p.tickets).length then
        .ok ((acc ++ p.tickets).take (limit.getD 0), n + 1)
      else if p.next then getTicketsLoop limit rest (acc ++ p.tickets) (n + 1)
      else .ok (acc ++ p.tickets, n + 1) := rfl

lemma getTicketsLoop_cons_ok (limit : Option Nat) (p : Page) (rest : List Page)
    (acc : List RawTicket) (n : Nat) (h : p.status = 200) :
    getTicketsLoop limit (p :: rest) acc n =
      if limitReached limit (acc ++ p.tickets).length then
        .ok ((acc ++ p.tickets).take (limit.getD 0), n + 1)
      else if p.next then getTicketsLoop limit rest (acc ++ p.tickets) (n + 1)
      else .ok (acc ++ p.tickets, n + 1) := by
  rw [getTicketsLoop_cons, if_neg (by simp [h])]

lemma getTicketsLoop_cons_error (limit : Option Nat) (p : Page) (rest : List Page)
    (acc : List RawTicket) (n : Nat) (h : p.status ≠ 200) :
    getTicketsLoop limit (p :: rest) acc n = .error p.status := by
  rw [getTicketsLoop_cons, if_pos h]

lemma getTicketsLoop_limit_zero (pages : List Page) :
    ∀ acc n, getTicketsLoop (some 0) pages acc n = getTicketsLoop none pages acc n := by
  induction pages with
  | nil => intro acc n; rfl
  | cons p rest ih =>
    intro acc n
    rw [getTicketsLoop_cons, getTicketsLoop_cons, limitReached_zero, limitReached_none, ih]
    simp

lemma wellFormed_cons_nil (p : Page) (h : wellFormed [p] = true) :
    p.status = 200 ∧ p.next = false := by
  simpa [wellFormed] using h

lemma wellFormed_cons_cons (p q : Page) (qs : List Page)
    (h : wellFormed (p :: q :: qs) = true) :
    p.status = 200 ∧ p.next = true ∧ wellFormed (q :: qs) = true := by
  simpa [wellFormed, and_assoc] using h

lemma getTicketsLoop_none_wf :
    ∀ (pages : List Page), wellFormed pages = true →
      ∀ acc n, getTicketsLoop none pages acc n =
        .ok (acc ++ (pages.map Page.tickets).flatten, n + pages.length) := by
  intro pages
  induction pages with
  | nil => intro _ acc n; simp [getTicketsLoop]
  | cons p rest ih =>
    intro hwf acc n
    cases rest with
    | nil =>
      obtain ⟨h200, hnext⟩ := wellFormed_cons_nil p hwf
      rw [getTicketsLoop_cons_ok none p [] acc n h200, limitReached_none,
        if_neg (by simp), if_neg (by simp [hnext])]
      simp
    | cons q qs =>
      obtain ⟨h200, hnext, hrest⟩ := wellFormed_cons_cons p q qs hwf
      rw [getTicketsLoop_cons_ok none p (q :: qs) acc n h200, limitReached_none,
        if_neg (by simp), if_pos hnext, ih hrest (acc ++ p.tickets) (n + 1)]
      simp [List.append_assoc]
      omega

lemma getTicketsLoop_some_wf (l : Nat) (hl : l ≠ 0) :
    ∀ (pages : List Page), wellFormed pages = true →
      ∀ acc n, acc.length < l →
        ∃ m, getTicketsLoop (some l) pages acc n =
          .ok ((acc ++ (pages.map Page.tickets).flatten).take l, m) := by
  intro pages
  induction pages with
  | nil =>
    intro _ acc n hacc
    exact ⟨n, by simp [getTicketsLoop, List.take_of_length_le (Nat.le_of_lt hacc)]⟩
  | cons p rest ih =>
    intro hwf acc n hacc
    have h200 : p.status = 200 := by
      cases rest with
      | nil => exact (wellFormed_cons_nil p hwf).1
      | cons q qs => exact (wellFormed_cons_cons p q qs hwf).1
    by_cases hreach : l ≤ (acc ++ p.tickets).length
    · have hlr : limitReached (some l) (acc ++ p.tickets).length = true := by
        simp only [limitReached, Bool.and_eq_true, bne_iff_ne, ne_eq, decide_eq_true_eq]
        exact ⟨hl, hreach⟩
      refine ⟨n + 1, ?_⟩
      rw [getTicketsLoop_cons_ok (some l) p rest acc n h200, if_pos hlr]
      have hlist : (acc ++ ((p :: rest).map Page.tickets).flatten).take l
          = (acc ++ p.tickets).take l := by
        simp only [List.map_cons, List.flatten_cons, ← List.append_assoc,
          List.take_append_eq_append_take, Nat.sub_eq_zero_of_le hreach,
          List.take_zero, List.append_nil]
      rw [hlist]
      simp [Option.getD_some]
    · have hlt : (acc ++ p.tickets).length < l := Nat.lt_of_not_le hreach
      have hlr : limitReached (some l) (acc ++ p.tickets).length = false := by
        simp only [limitReached]
        rw [decide_eq_false hreach, Bool.and_false]
      cases rest with
      | nil =>
        obtain ⟨h200x, hnext⟩ := wellFormed_cons_nil p hwf
        refine ⟨n + 1, ?_⟩
        rw [getTicketsLoop_cons_ok (some l) p [] acc n h200,
          if_neg (ne_true_of_eq_false hlr), if_neg (ne_true_of_eq_false hnext)]
        have hlist : (acc ++ ([p].map Page.tickets).flatten).take l = acc ++ p.tickets := by
          simp only [List.map_cons, List.map_nil, List.flatten_cons, List.flatten_nil,
            List.append_nil]
          exact List.take_of_length_le (Nat.le_of_lt hlt)
        rw [hlist]
      | cons q qs =>
        obtain ⟨h200x, hnext, hrest⟩ := wellFormed_cons_cons p q qs hwf
        obtain ⟨m, hm⟩ := ih hrest (acc ++ p.tickets) (n + 1) hlt
        refine ⟨m, ?_⟩
        rw [getTicketsLoop_cons_ok (some l) p (q :: qs) acc n h200,
          if_neg (ne_true_of_eq_false hlr), if_pos hnext, hm]
        simp [List.append_assoc]

end ZendeskExporter

namespace ZendeskExporter

/-- Two server pages of 100 and 30 tickets, the first pointing at the
second, used to instantiate the pagination theorems. -/
def samplePages : List Page :=
  [⟨200, List.replicate 100 sampleTicket, true⟩,
   ⟨200, List.replicate 30 sampleTicket, false⟩]

/-- Claim C3: for every positive limit `L` and every server response
sequence, `get_tickets` with `limit = L` returns a ticket list of length
exactly `min L (total tickets available across all pages)`. -/
theorem get_tickets_length_min (L : Nat) (pages : List Page)
    (hL : 0 < L) (hwf : wellFormed pages = true) :
    ∃ ts m, get_tickets (some L) pages = Except.ok (ts, m) ∧
      ts.length = min L (totalTickets pages) := by
  obtain ⟨m, hm⟩ :=
    getTicketsLoop_some_wf L (Nat.pos_iff_ne_zero.mp hL) pages hwf [] 0 hL
  refine ⟨_, m, hm, ?_⟩
  simp [List.length_take, totalTickets, List.length_flatten, List.map_map]
  rfl

theorem get_tickets_length_min_witness :
    0 < 2 ∧
    wellFormed [⟨200, [sampleTicket, sampleTicket, sampleTicket], false⟩] = true ∧
    ∃ ts m, get_tickets (some 2)
        [⟨200, [sampleTicket, sampleTicket, sampleTicket], false⟩]
      = Except.ok (ts, m) ∧
      ts.length = min 2
        (totalTickets [⟨200, [sampleTicket, sampleTicket, sampleTicket], false⟩]) :=
  ⟨by decide, by decide, get_tickets_length_min 2 _ (by decide) (by decide)⟩

/-- Claim C4: when the accumulated count reaches the limit within the page
just fetched, `get_tickets` truncates the accumulated sequence to exactly
`limit` items and stops after that single page fetch, regardless of what
further pages the server would have offered. -/
theorem get_tickets_truncates_without_second_fetch (l : Nat) (p : Page)
    (rest : List Page) (hl : 0 < l) (hstatus : p.status = 200)
    (hlen : l ≤ p.tickets.length) :
    get_tickets (some l) (p :: rest) = Except.ok (p.tickets.take l, 1) ∧
      (p.tickets.take l).length = l := by
  constructor
  · have hlr : limitReached (some l) (([] : List RawTicket) ++ p.tickets).length
        = true := by
      simp only [limitReached, Bool.and_eq_true, bne_iff_ne, ne_eq, decide_eq_true_eq]
      exact ⟨Nat.pos_iff_ne_zero.mp hl, by simpa using hlen⟩
    rw [get_tickets, getTicketsLoop_cons_ok (some l) p rest [] 0 hstatus, if_pos hlr]
    simp
  · simp [List.length_take, Nat.min_eq_left hlen]

theorem get_tickets_truncates_without_second_fetch_witness :
    get_tickets (some 50) samplePages
      = Except.ok ((List.replicate 100 sampleTicket).take 50, 1) ∧
    ((List.replicate 100 sampleTicket).take 50).length = 50 :=
  get_tickets_truncates_without_second_fetch 50
    ⟨200, List.replicate 100 sampleTicket, true⟩
    [⟨200, List.replicate 30 sampleTicket, false⟩]
    (by decide) rfl (by decide)

/-- Claim C5: with `limit = None` the paginator follows the `next_page`
cursor until it is null and returns the concatenation of all pages in
page order and within-page order, fetching each page once. -/
theorem get_tickets_unlimited_concat (pages : List Page)
    (hwf : wellFormed pages = true) :
    get_tickets none pages =
      Except.ok ((pages.map Page.tickets).flatten, pages.length) := by
  simpa using getTicketsLoop_none_wf pages hwf [] 0

theorem get_tickets_unlimited_concat_witness :
    wellFormed samplePages = true ∧
    get_tickets none samplePages
      = Except.ok ((samplePages.map Page.tickets).flatten, samplePages.length) ∧
    ((samplePages.map Page.tickets).flatten).length = 130 :=
  ⟨by rfl, get_tickets_unlimited_concat samplePages (by rfl),
   by simp [samplePages]⟩

/-- Claim C10: `limit = 0` is falsy in the `if limit and ...` check, so a
direct call of `get_tickets` with `limit = some 0` skips the limit check
and behaves exactly like `limit = none`, paginating to the end; the
interactive prompt is the only guard, rejecting `0` with a re-prompt. -/
theorem limit_zero_falsy_like_none :
    (∀ pages, get_tickets (some 0) pages = get_tickets none pages) ∧
    parseLimitInput "0" = .retry "Please enter a positive number." := by
  constructor
  · intro pages
    exact getTicketsLoop_limit_zero pages [] 0
  · decide

end ZendeskExporter

namespace ZendeskExporter

/-- Claim C6: enrichment is length- and order-preserving: the output has
the same length as the input, and the record at every index carries the
id of the ticket at that index. -/
theorem enrich_length_order_preserving (fetch : Nat → CommentResponse)
    (tickets : List RawTicket) :
    (get_tickets_with_comments fetch tickets).length = tickets.length ∧
    ∀ i : Nat,
      ((get_tickets_with_comments fetch tickets)[i]?).map NormalizedRecord.id
        = (tickets[i]?).map RawTicket.id := by
  constructor
  · simp [get_tickets_with_comments]
  · intro i
    simp only [get_tickets_with_comments, List.getElem?_map]
    cases tickets[i]? <;> simp [normalizeTicket]

/-- Claim C7: the synthesized `comments` field drops the first returned
comment and joins the rest in order, each formatted as
`Comment by <author_id> at <created_at>:\n<body>` with separator
`\n---\n`; with one or zero comments it is the empty string, and the
two-comment example from the spec yields exactly the second comment's
formatting. -/
theorem comments_field_drops_first_and_joins :
    (∀ (t : RawTicket) (cs : List Comment),
        (normalizeTicket t cs).comments =
          String.intercalate "\n---\n" ((cs.drop 1).map formatComment)) ∧
    (∀ (t : RawTicket) (c : Comment), (normalizeTicket t [c]).comments = "") ∧
    (∀ t : RawTicket, (normalizeTicket t []).comments = "") ∧
    commentsField [⟨5, "t0", "desc"⟩, ⟨7, "t1", "hello"⟩]
      = "Comment by 7 at t1:\nhello" := by
  refine ⟨?_, ?_, ?_, by decide⟩
  · intro t cs
    rcases cs with _ | ⟨c, _ | ⟨d, ds⟩⟩ <;> rfl
  · intro t c; rfl
  · intro t; rfl

/-- Claim C8: a non-200 status on ticket listing is fatal — the run
aborts with the status and produces no CSV rows — while a non-200 status
on a comment fetch only emits a warning, yields an empty `comments` field
for that ticket, and the run still produces one record per ticket. -/
theorem listing_fatal_comment_fetch_recoverable :
    (∀ (limit : Option Nat) (p : Page) (rest : List Page), p.status ≠ 200 →
        get_tickets limit (p :: rest) = Except.error p.status) ∧
    (∀ (limit : Option Nat) (p : Page) (rest : List Page)
        (fetch : Nat → CommentResponse), p.status ≠ 200 →
        runExport limit (p :: rest) fetch
          = Except.error (RunError.remote p.status)) ∧
    (∀ (ticket_id : Nat) (resp : CommentResponse), resp.status ≠ 200 →
        get_ticket_comments ticket_id resp
          = ([], some (commentWarning ticket_id))) ∧
    (∀ (fetch : Nat → CommentResponse) (tickets : List RawTicket),
        (get_tickets_with_comments fetch tickets).length = tickets.length) ∧
    (∀ (fetch : Nat → CommentResponse) (tickets : List RawTicket) (i : Nat)
        (t : RawTicket), tickets[i]? = some t → (fetch t.id).status ≠ 200 →
        ((get_tickets_with_comments fetch tickets)[i]?).map
            NormalizedRecord.comments = some "") := by
  refine ⟨?_, ?_, ?_, ?_, ?_⟩
  · intro limit p rest h
    exact getTicketsLoop_cons_error limit p rest [] 0 h
  · intro limit p rest fetch h
    simp [runExport, get_tickets, getTicketsLoop_cons_error limit p rest [] 0 h]
  · intro ticket_id resp h
    simp [get_ticket_comments, h]
  · intro fetch tickets
    simp [get_tickets_with_comments]
  · intro fetch tickets i t ht hf
    simp [get_tickets_with_comments, List.getElem?_map, ht, get_ticket_comments,
      hf, normalizeTicket, commentsField]

theorem listing_fatal_comment_fetch_recoverable_witness :
    get_tickets none [⟨500, [], false⟩] = Except.error 500 ∧
    runExport none [⟨500, [], false⟩] (fun _ => ⟨404, []⟩)
      = Except.error (RunError.remote 500) ∧
    get_ticket_comments 1 ⟨404, []⟩ = ([], some (commentWarning 1)) ∧
    (get_tickets_with_comments (fun _ => ⟨404, []⟩) [sampleTicket]).length
      = [sampleTicket].length ∧
    ((get_tickets_with_comments (fun _ => ⟨404, []⟩) [sampleTicket])[0]?).map
        NormalizedRecord.comments = some "" := by
  have h := listing_fatal_comment_fetch_recoverable
  exact ⟨h.1 none ⟨500, [], false⟩ [] (by decide),
         h.2.1 none ⟨500, [], false⟩ [] (fun _ => ⟨404, []⟩) (by decide),
         h.2.2.1 1 ⟨404, []⟩ (by decide),
         h.2.2.2.1 (fun _ => ⟨404, []⟩) [sampleTicket],
         h.2.2.2.2 (fun _ => ⟨404, []⟩) [sampleTicket] 0 sampleTicket rfl
           (by decide)⟩

/-- Claim C9: every optional field missing from the raw ticket gets a
default in the normalized record — empty string for the scalar fields,
empty sequence for `tags`; the `NormalizedRecord` type itself carries all
eleven keys, so no key is ever null or absent. -/
theorem normalize_missing_fields_default (t : RawTicket) (cs : List Comment) :
    (t.subject = none → (normalizeTicket t cs).subject = "") ∧
    (t.description = none → (normalizeTicket t cs).description = "") ∧
    (t.status = none → (normalizeTicket t cs).status = "") ∧
    (t.priority = none → (normalizeTicket t cs).priority = "") ∧
    (t.requester_id = none → (normalizeTicket t cs).requester_id = "") ∧
    (t.assignee_id = none → (normalizeTicket t cs).assignee_id = "") ∧
    (t.tags = none → (normalizeTicket t cs).tags = []) := by
  refine ⟨?_, ?_, ?_, ?_, ?_, ?_, ?_⟩ <;> intro h <;> simp [normalizeTicket, h]

theorem normalize_missing_fields_default_witness :
    (normalizeTicket sampleTicket []).subject = "" ∧
    (normalizeTicket sampleTicket []).description = "" ∧
    (normalizeTicket sampleTicket []).status = "" ∧
    (normalizeTicket sampleTicket []).priority = "" ∧
    (normalizeTicket sampleTicket []).requester_id = "" ∧
    (normalizeTicket sampleTicket []).assignee_id = "" ∧
    (normalizeTicket sampleTicket []).tags = [] := by
  have h := normalize_missing_fields_default sampleTicket []
  exact ⟨h.1 rfl, h.2.1 rfl, h.2.2.1 rfl, h.2.2.2.1 rfl, h.2.2.2.2.1 rfl,
         h.2.2.2.2.2.1 rfl, h.2.2.2.2.2.2 rfl⟩

/-- Claim C1 counterexample: on the empty record sequence the export does
not produce a header-only file — `pd.DataFrame([])` has no columns, the
column selection raises `KeyError`, and the write fails. -/
theorem export_to_csv_empty_raises :
    export_to_csv [] = Except.error "KeyError" := rfl

/-- Claim C1 (amended): for every nonempty sequence of normalized
records, `export_to_csv` succeeds and produces exactly one header row in
the fixed column order of §6 followed by one data row per record. -/
theorem export_to_csv_header_and_rows (records : List NormalizedRecord)
    (h : records ≠ []) :
    export_to_csv records = Except.ok (csvHeader :: records.map toCSVRow) ∧
      (csvHeader :: records.map toCSVRow).length = records.length + 1 := by
  constructor
  · simp [export_to_csv, h]
  · simp

theorem export_to_csv_header_and_rows_witness :
    export_to_csv [normalizeTicket sampleTicket []]
      = Except.ok (csvHeader :: [normalizeTicket sampleTicket []].map toCSVRow) ∧
    (csvHeader :: [normalizeTicket sampleTicket []].map toCSVRow).length
      = [normalizeTicket sampleTicket []].length + 1 :=
  export_to_csv_header_and_rows [normalizeTicket sampleTicket []] (by simp)

/-- Claim C2 counterexample: an environment carrying `SUBDOMAIN`, `EMAIL`
and `API_TOKEN` (the names the claim states) and nothing else still fails
the credential check — the code consults the `ZENDESK_`-prefixed names. -/
theorem checkCredentials_ignores_unprefixed_names :
    checkCredentials (fun k =>
        if k = "SUBDOMAIN" then some "acme"
        else if k = "EMAIL" then some "user@example.com"
        else if k = "API_TOKEN" then some "secret" else none)
      = Except.error (credErrorMessage, 1) := rfl

/-- Claim C2 (amended): credentials are read under the fixed names
`ZENDESK_SUBDOMAIN`, `ZENDESK_EMAIL`, `ZENDESK_API_TOKEN`; if any of the
three is absent (or empty — Python falsy), `main` exits with code 1
before any network activity — the outcome is the same error for every
server behavior — printing remediation text naming the three variables. -/
theorem missing_credentials_fatal_preflight (env : String → Option String)
    (h : isTruthy (env "ZENDESK_SUBDOMAIN") = false ∨
         isTruthy (env "ZENDESK_EMAIL") = false ∨
         isTruthy (env "ZENDESK_API_TOKEN") = false) :
    (∀ (limit : Option Nat) (pages : List Page)
        (fetch : Nat → CommentResponse),
        mainRun env limit pages fetch
          = Except.error (RunError.config credErrorMessage 1)) ∧
    credErrorMessage =
      "\nERROR: Missing Zendesk credentials. Please set these environment variables:\n  - "
        ++ "ZENDESK_SUBDOMAIN" ++ "\n  - " ++ "ZENDESK_EMAIL" ++ "\n  - "
        ++ "ZENDESK_API_TOKEN" ++ "\n" := by
  have hcc : checkCredentials env = Except.error (credErrorMessage, 1) := by
    unfold checkCredentials
    rcases hs : env "ZENDESK_SUBDOMAIN" with _ | s <;>
    rcases he : env "ZENDESK_EMAIL" with _ | e <;>
    rcases ht : env "ZENDESK_API_TOKEN" with _ | t <;>
    simp_all [isTruthy] <;>
    (rcases h with h | h | h <;> simp_all)
  refine ⟨?_, by decide⟩
  intro limit pages fetch
  simp [mainRun, hcc]

theorem missing_credentials_fatal_preflight_witness :
    mainRun (fun _ => none) none [] (fun _ => ⟨200, []⟩)
      = Except.error (RunError.config credErrorMessage 1) :=
  (missing_credentials_fatal_preflight (fun _ => none) (Or.inl rfl)).1
    none [] (fun _ => ⟨200, []⟩)

end ZendeskExporter
